import Mathlib

/-!
Shallow embedding of the online-judge core of this repository:
`src/server/services/codeExecutor.ts` (harness generation, process running,
result parsing, the three language executors) and
`src/server/routes/judge.ts` (the orchestrator route `judgeSubmission`).

External effects (filesystem writes, spawned processes, the wall clock) are
modelled as explicit outcome parameters threaded through the control flow
that the TypeScript source actually has; every branch of the Lean
definitions corresponds to a branch of the source.
-/

namespace Judge

/-- JavaScript runtime values produced by `JSON.parse` (the `undefined`
value cannot come out of `JSON.parse`, so it is not a constructor here;
where the source distinguishes `undefined` we use `Option Json`).
Numbers are modelled as integers: every numeric literal the judge pipeline
manipulates (test indices, pass flags, execution times) is integral. -/
inductive Json where
  | jnull : Json
  | jbool : Bool → Json
  | jnum : Int → Json
  | jstr : String → Json
  | jarr : List Json → Json
  | jobj : List (String × Json) → Json

/-- The `\x7b` character, kept out of character-literal position. -/
def lbraceChar : Char := Char.ofNat 123

/-- The `\x7d` character. -/
def rbraceChar : Char := Char.ofNat 125

def isWsChar (c : Char) : Bool :=
  c = ' ' || c = '\t' || c = '\n' || c = '\r'

def skipWs (cs : List Char) : List Char :=
  cs.dropWhile isWsChar

/-- JSON string escape map (`\uXXXX` escapes are outside the modelled
subset; no string the judge itself serializes uses them). -/
def escChar : Char → Option Char
  | '\"' => some '\"'
  | '\\' => some '\\'
  | '/' => some '/'
  | 'b' => some (Char.ofNat 8)
  | 'f' => some (Char.ofNat 12)
  | 'n' => some '\n'
  | 'r' => some '\r'
  | 't' => some '\t'
  | _ => none

/-- Parse the body of a JSON string after the opening quote, up to and
including the closing quote. -/
def parseStringBody : List Char → Option (String × List Char)
  | [] => none
  | '\"' :: rest => some ("", rest)
  | '\\' :: e :: rest2 =>
    match escChar e with
    | none => none
    | some d =>
      match parseStringBody rest2 with
      | none => none
      | some (s, r) => some (String.mk (d :: s.data), r)
  | ['\\'] => none
  | c :: rest =>
    match parseStringBody rest with
    | none => none
    | some (s, r) => some (String.mk (c :: s.data), r)

def digitVal (c : Char) : Nat := c.toNat - 48

def parseDigits (cs : List Char) : Option (Nat × List Char) :=
  let ds := cs.takeWhile Char.isDigit
  if ds.isEmpty then none
  else some (ds.foldl (fun acc c => 10 * acc + digitVal c) 0, cs.dropWhile Char.isDigit)

/-- JSON number token (integer subset; see `Json`). -/
def parseNumberToken (cs : List Char) : Option (Json × List Char) :=
  match cs with
  | '-' :: rest =>
    match parseDigits rest with
    | some (n, r) => some (Json.jnum (-(n : Int)), r)
    | none => none
  | _ =>
    match parseDigits cs with
    | some (n, r) => some (Json.jnum (n : Int), r)
    | none => none

mutual

/-- Fueled recursive-descent parser for the JSON subset; mirrors the
grammar `JSON.parse` accepts on the values this judge exchanges. -/
def parseValue : Nat → List Char → Option (Json × List Char)
  | 0, _ => none
  | Nat.succ fuel, cs =>
    match skipWs cs with
    | 'n' :: 'u' :: 'l' :: 'l' :: rest => some (Json.jnull, rest)
    | 't' :: 'r' :: 'u' :: 'e' :: rest => some (Json.jbool true, rest)
    | 'f' :: 'a' :: 'l' :: 's' :: 'e' :: rest => some (Json.jbool false, rest)
    | '\"' :: rest =>
      match parseStringBody rest with
      | some (s, r) => some (Json.jstr s, r)
      | none => none
    | '[' :: rest =>
      match skipWs rest with
      | ']' :: r => some (Json.jarr [], r)
      | rest2 =>
        match parseElems fuel rest2 with
        | some (xs, r) => some (Json.jarr xs, r)
        | none => none
    | c :: rest =>
      if c = lbraceChar then
        match skipWs rest with
        | d :: r =>
          if d = rbraceChar then some (Json.jobj [], r)
          else
            match parseMembers fuel (d :: r) with
            | some (ms, r2) => some (Json.jobj ms, r2)
            | none => none
        | [] => none
      else parseNumberToken (c :: rest)
    | [] => none
termination_by structural fuel _ => fuel

/-- Comma-separated JSON values up to a closing `]`. -/
def parseElems : Nat → List Char → Option (List Json × List Char)
  | 0, _ => none
  | Nat.succ fuel, cs =>
    match parseValue fuel cs with
    | none => none
    | some (v, rest) =>
      match skipWs rest with
      | ',' :: r =>
        match parseElems fuel r with
        | some (xs, r2) => some (v :: xs, r2)
        | none => none
      | ']' :: r => some ([v], r)
      | _ => none
termination_by structural fuel _ => fuel

/-- Comma-separated `"key": value` members up to a closing brace. -/
def parseMembers : Nat → List Char → Option (List (String × Json) × List Char)
  | 0, _ => none
  | Nat.succ fuel, cs =>
    match skipWs cs with
    | '\"' :: rest =>
      match parseStringBody rest with
      | none => none
      | some (k, r) =>
        match skipWs r with
        | ':' :: r2 =>
          match parseValue fuel r2 with
          | none => none
          | some (v, r3) =>
            match skipWs r3 with
            | ',' :: r4 =>
              match parseMembers fuel r4 with
              | some (ms, r5) => some ((k, v) :: ms, r5)
              | none => none
            | d :: r4 => if d = rbraceChar then some ([(k, v)], r4) else none
            | [] => none
        | _ => none
    | _ => none
termination_by structural fuel _ => fuel

end

/-- Model of `JSON.parse`: the whole string (with surrounding whitespace)
must be one value of the subset grammar. -/
def jsonParse (s : String) : Option Json :=
  match parseValue (2 * s.length + 4) s.data with
  | some (v, rest) => if (skipWs rest).isEmpty then some v else none
  | none => none

/-- The sentinel marker the harnesses print, `codeExecutor.ts` line 541. -/
def sentinelMarker : List Char := "JUDGE_RESULT:".data

/-- What `.` matches in a JavaScript regex: any char except a line break. -/
def isLineChar (c : Char) : Bool :=
  !(c = '\n' || c = '\r')

/-- Leftmost match of the JavaScript regex `JUDGE_RESULT:(.+)` over the
captured output; returns the capture group.  The marker may occur anywhere
in a line (the regex is not anchored), and an occurrence followed by no
line character does not match, so scanning resumes one position later,
exactly as the regex engine backtracks. -/
def sentinelScan : List Char → Option (List Char)
  | [] => none
  | c :: rest =>
    if List.isPrefixOf sentinelMarker (c :: rest) then
      match (c :: rest).drop sentinelMarker.length with
      | d :: ds =>
        if isLineChar d then some ((d :: ds).takeWhile isLineChar)
        else sentinelScan rest
      | [] => sentinelScan rest
    else sentinelScan rest

def sentinelCapture (s : String) : Option String :=
  (sentinelScan s.data).map fun cs => String.mk cs

/-- Test case shape, `codeExecutor.ts` lines 6-10. -/
structure TestCase where
  input : String
  expectedOutput : String
  explanation : String
deriving DecidableEq

/-- Aggregate judge result, `codeExecutor.ts` lines 21-27.  At runtime the
`results` field holds whatever `JSON.parse` returned (the TypeScript
annotation `ExecutionResult[]` is not checked), so it is `List Json`. -/
structure JudgeResult where
  success : Bool
  totalTests : Nat
  passedTests : Nat
  results : List Json
  overallError : Option String

/-- JavaScript truthiness of a property-lookup result (`undefined` is
`none`). -/
def jsTruthy : Option Json → Bool
  | none => false
  | some Json.jnull => false
  | some (Json.jbool b) => b
  | some (Json.jnum n) => n != 0
  | some (Json.jstr s) => s != ""
  | some (Json.jarr _) => true
  | some (Json.jobj _) => true

/-- Property lookup on a parsed JSON object: the last duplicate key wins,
as in `JSON.parse`. -/
def jsLookupLast (fields : List (String × Json)) (key : String) : Option Json :=
  (fields.reverse.find? fun kv => kv.fst = key).map Prod.snd

/-- The callback `r => r.passed` of `codeExecutor.ts` line 547 applied to
one decoded entry: property access on `null` throws (`none`); on every
other value it yields the truthiness of the `passed` property. -/
def jsPassedTruthy : Json → Option Bool
  | Json.jnull => none
  | Json.jobj fields => some (jsTruthy (jsLookupLast fields "passed"))
  | _ => some false

/-- `results.filter(r => r.passed).length`: counts the truthy entries left
to right, propagating the throw on a `null` entry. -/
def countPassedTruthy : List Json → Option Nat
  | [] => some 0
  | r :: rest =>
    match jsPassedTruthy r with
    | none => none
    | some b =>
      match countPassedTruthy rest with
      | none => none
      | some k => some (if b then k + 1 else k)

/-- The `catch` branch of `parseJudgeOutput`, lines 556-562. -/
def parseFailure (testCases : List TestCase) (msg : String) : JudgeResult :=
  { success := false
    totalTests := testCases.length
    passedTests := 0
    results := []
    overallError := some ("Failed to parse results: " ++ msg) }

/-- `parseJudgeOutput`, `codeExecutor.ts` lines 539-564: locate the
sentinel capture, `JSON.parse` it, count passing entries.  Every throw
(no match, invalid JSON, `.filter` missing on a non-array, property access
on a `null` element) lands in the `catch` branch. -/
def parseJudgeOutput (output : String) (testCases : List TestCase) : JudgeResult :=
  match sentinelCapture output with
  | none => parseFailure testCases "Error: No judge result found in output"
  | some cap =>
    match jsonParse cap with
    | none => parseFailure testCases "SyntaxError: invalid JSON"
    | some (Json.jarr rs) =>
      match countPassedTruthy rs with
      | none => parseFailure testCases "TypeError: cannot read passed of null"
      | some k =>
        { success := true
          totalTests := testCases.length
          passedTests := k
          results := rs
          overallError := none }
    | some _ => parseFailure testCases "TypeError: results.filter is not a function"

/-! ## Language executors (`codeExecutor.ts` lines 45-130)

Each executor writes a wrapped source file named after `Date.now()`, runs an
external process, unlinks the file, and parses the captured output; any
rejected promise lands in the `catch` branch that builds the
`Execution error:` result.  The filesystem and the child processes are
oracles: their outcomes are fields of an environment record, and the Lean
function replays the source's control flow over those outcomes, tracking
which temporary artifacts the invocation created and which remain when it
returns. -/

/-- Environment of one `executeJavaScript` / `executePython` invocation:
the `Date.now()` reading used for the file name and the outcome of each
awaited effect (`Except.error` is a rejected promise carrying the
stringified error). -/
structure ExecEnv where
  now : Nat
  mkdirOutcome : Except String Unit
  writeOutcome : Except String Unit
  runOutcome : Except String String
  unlinkOutcome : Except String Unit

/-- Environment of one `executeCpp` invocation; `now` and `now2` are the
two separate `Date.now()` calls on lines 98 and 100. -/
structure CppEnv where
  now : Nat
  now2 : Nat
  mkdirOutcome : Except String Unit
  writeOutcome : Except String Unit
  compileOutcome : Except String Unit
  runOutcome : Except String String
  unlinkSrcOutcome : Except String Unit
  unlinkExeOutcome : Except String Unit

/-- `ensureTempDir`, lines 36-42: the `mkdir` error is swallowed by the
empty `catch`, so the outcome never influences anything. -/
def ensureTempDir (_mkdirOutcome : Except String Unit) : Unit := ()

/-- File name `solution_${Date.now()}.js` of line 47 (the constant
`tempDir` prefix, shared by all invocations, is elided). -/
def jsSolutionName (now : Nat) : String :=
  "solution_" ++ toString now ++ ".js"

/-- File name `solution_${Date.now()}.py` of line 73. -/
def pySolutionName (now : Nat) : String :=
  "solution_" ++ toString now ++ ".py"

/-- File name `solution_${Date.now()}.cpp` of line 98. -/
def cppSolutionName (now : Nat) : String :=
  "solution_" ++ toString now ++ ".cpp"

/-- File name `solution_${Date.now()}.exe` of line 100. -/
def cppExecutableName (now2 : Nat) : String :=
  "solution_" ++ toString now2 ++ ".exe"

/-- The `catch` branch of the three executors (lines 59-67, 84-92,
121-129). -/
def execFailure (testCases : List TestCase) (msg : String) : JudgeResult :=
  { success := false
    totalTests := testCases.length
    passedTests := 0
    results := []
    overallError := some ("Execution error: " ++ msg) }

/-- Result of one executor invocation together with the temporary
artifacts it created and the ones still on disk when it returned. -/
structure ExecRun where
  result : JudgeResult
  created : List String
  remaining : List String

/-- `executeJavaScript`, lines 45-68.  The user code itself only reaches
the model through `runOutcome` (the spawned process is the oracle).  Note
the source unlinks the file only after a successful run: a rejected
`runNodeProcess` (crash, spawn failure, timeout) jumps to `catch` with the
file still on disk. -/
def executeJavaScriptRun (env : ExecEnv) (testCases : List TestCase) : ExecRun :=
  let _ := ensureTempDir env.mkdirOutcome
  let file := jsSolutionName env.now
  match env.writeOutcome with
  | Except.error e => ⟨execFailure testCases e, [], []⟩
  | Except.ok _ =>
    match env.runOutcome with
    | Except.error e => ⟨execFailure testCases e, [file], [file]⟩
    | Except.ok stdout =>
      match env.unlinkOutcome with
      | Except.error e => ⟨execFailure testCases e, [file], [file]⟩
      | Except.ok _ => ⟨parseJudgeOutput stdout testCases, [file], []⟩

def executeJavaScript (env : ExecEnv) (testCases : List TestCase) : JudgeResult :=
  (executeJavaScriptRun env testCases).result

/-- `executePython`, lines 71-93: identical control flow, `.py` name. -/
def executePythonRun (env : ExecEnv) (testCases : List TestCase) : ExecRun :=
  let _ := ensureTempDir env.mkdirOutcome
  let file := pySolutionName env.now
  match env.writeOutcome with
  | Except.error e => ⟨execFailure testCases e, [], []⟩
  | Except.ok _ =>
    match env.runOutcome with
    | Except.error e => ⟨execFailure testCases e, [file], [file]⟩
    | Except.ok stdout =>
      match env.unlinkOutcome with
      | Except.error e => ⟨execFailure testCases e, [file], [file]⟩
      | Except.ok _ => ⟨parseJudgeOutput stdout testCases, [file], []⟩

def executePython (env : ExecEnv) (testCases : List TestCase) : JudgeResult :=
  (executePythonRun env testCases).result

/-- `executeCpp`, lines 96-130: write, compile, run, unlink source (a
throw here skips the rest), unlink executable (errors swallowed by the
inner `try`), parse.  A failed compile or run jumps to `catch` with the
artifacts still on disk. -/
def executeCppRun (env : CppEnv) (testCases : List TestCase) : ExecRun :=
  let _ := ensureTempDir env.mkdirOutcome
  let src := cppSolutionName env.now
  let exe := cppExecutableName env.now2
  match env.writeOutcome with
  | Except.error e => ⟨execFailure testCases e, [], []⟩
  | Except.ok _ =>
    match env.compileOutcome with
    | Except.error e => ⟨execFailure testCases e, [src], [src]⟩
    | Except.ok _ =>
      match env.runOutcome with
      | Except.error e => ⟨execFailure testCases e, [src, exe], [src, exe]⟩
      | Except.ok stdout =>
        match env.unlinkSrcOutcome with
        | Except.error e => ⟨execFailure testCases e, [src, exe], [src, exe]⟩
        | Except.ok _ =>
          match env.unlinkExeOutcome with
          | Except.error _ => ⟨parseJudgeOutput stdout testCases, [src, exe], [exe]⟩
          | Except.ok _ => ⟨parseJudgeOutput stdout testCases, [src, exe], []⟩

def executeCpp (env : CppEnv) (testCases : List TestCase) : JudgeResult :=
  (executeCppRun env testCases).result

/-- A `JudgeResult` is produced by the executor when some invocation of
one of the three language pipelines returns it. -/
def Produced (testCases : List TestCase) (r : JudgeResult) : Prop :=
  (∃ env, executeJavaScript env testCases = r) ∨
  (∃ env, executePython env testCases = r) ∨
  (∃ env, executeCpp env testCases = r)

/-! ## Generated JavaScript harness (`wrapJavaScriptCode`, lines 132-223)

The driver appended to the user code runs every test case through a
heuristic input parser and whichever recognized entry point the user
defined.  User functions are oracles: each is an optional function that
may return a value (`some`), return `undefined` (`none`), or throw
(`Except.error`). -/

/-- One decoded per-test outcome, `codeExecutor.ts` lines 12-19 (field
`executionTime` in the source; the clock delta is modelled as 0, the spec
itself exempts it from reproducibility). -/
structure ExecutionResult where
  testCaseIndex : Nat
  passed : Bool
  actualOutput : String
  expectedOutput : String
  error : Option String
  executionTime : Nat
deriving DecidableEq

/-- `String.prototype.indexOf` for a single character: first index or -1. -/
def jsIndexOfChar (s : String) (c : Char) : Int :=
  match s.data.findIdx? (fun d => d == c) with
  | some i => (i : Int)
  | none => -1

/-- `String.prototype.substring`: clamp both arguments to `[0, length]`
and swap them when start exceeds end. -/
def jsSubstring (s : String) (a b : Int) : String :=
  let len : Int := (s.length : Int)
  let av : Nat := (max 0 (min a len)).toNat
  let bv : Nat := (max 0 (min b len)).toNat
  let lo := min av bv
  let hi := max av bv
  String.mk ((s.data.drop lo).take (hi - lo))

/-- `parseInt` on a decimal string: skip leading whitespace, optional
sign, then a nonempty digit run; `none` is `NaN`.  (The hexadecimal
`0x` autodetection is outside the modelled inputs.) -/
def jsParseInt (s : String) : Option Int :=
  match s.data.dropWhile isWsChar with
  | '-' :: rest => (parseDigits rest).map fun p => -(p.fst : Int)
  | '+' :: rest => (parseDigits rest).map fun p => (p.fst : Int)
  | t => (parseDigits t).map fun p => (p.fst : Int)

/-- `String.prototype.includes` for a single character. -/
def containsChar (s : String) (c : Char) : Bool :=
  s.data.contains c

/-- `String.prototype.split(',')` on the character list. -/
def splitCommaChars : List Char → List (List Char)
  | [] => [[]]
  | ',' :: rest => [] :: splitCommaChars rest
  | c :: rest =>
    match splitCommaChars rest with
    | [] => [[c]]
    | g :: gs => (c :: g) :: gs

/-- `String.prototype.split(',')`. -/
def jsSplitComma (s : String) : List String :=
  (splitCommaChars s.data).map String.mk

/-- `String.prototype.trim` (over the whitespace the judge inputs use). -/
def jsTrim (s : String) : String :=
  String.mk (((s.data.dropWhile isWsChar).reverse.dropWhile isWsChar).reverse)

/-- The regex `"([^"]*)"` of line 172: the text between the first quote
and the next one; `none` when no second quote exists (then `match`
returns `null` and indexing it throws). -/
def quotedSubstring (s : String) : Option String :=
  match s.data.dropWhile (fun c => c != '\"') with
  | [] => none
  | _ :: rest =>
    if (rest.dropWhile (fun c => c != '\"')).isEmpty then none
    else some (String.mk (rest.takeWhile (fun c => c != '\"')))

/-- The `JSON.parse` syntax-error message; the empty-input message is the
engine's exact text, the other is abbreviated. -/
def jsonSyntaxMsg (s : String) : String :=
  if s.data.isEmpty then "Unexpected end of JSON input" else "Unexpected token in JSON"

def stringifyEscape (c : Char) : String :=
  if c = '\"' then "\\\""
  else if c = '\\' then "\\\\"
  else if c = '\n' then "\\n"
  else if c = '\t' then "\\t"
  else if c = '\r' then "\\r"
  else String.mk [c]

def stringifyStringBody : List Char → String
  | [] => ""
  | c :: rest => stringifyEscape c ++ stringifyStringBody rest

mutual

/-- `JSON.stringify` on parsed values. -/
def jsonStringify : Json → String
  | Json.jnull => "null"
  | Json.jbool b => if b then "true" else "false"
  | Json.jnum n => toString n
  | Json.jstr s => "\"" ++ stringifyStringBody s.data ++ "\""
  | Json.jarr xs => "[" ++ stringifyList xs ++ "]"
  | Json.jobj ms => String.mk [lbraceChar] ++ stringifyMembers ms ++ String.mk [rbraceChar]

def stringifyList : List Json → String
  | [] => ""
  | [x] => jsonStringify x
  | x :: y :: rest => jsonStringify x ++ "," ++ stringifyList (y :: rest)

def stringifyMembers : List (String × Json) → String
  | [] => ""
  | [(k, v)] => "\"" ++ stringifyStringBody k.data ++ "\":" ++ jsonStringify v
  | (k, v) :: m :: rest =>
    "\"" ++ stringifyStringBody k.data ++ "\":" ++ jsonStringify v ++ "," ++
      stringifyMembers (m :: rest)

end

mutual

/-- `result.toString()` on a value coming from the user function: throws
on `null`, joins arrays with commas, and is the usual decimal / boolean /
identity conversion otherwise. -/
def jsToString : Json → Except String String
  | Json.jnull => Except.error "TypeError: null has no toString"
  | Json.jbool b => Except.ok (if b then "true" else "false")
  | Json.jnum n => Except.ok (toString n)
  | Json.jstr s => Except.ok s
  | Json.jarr xs => (arrToString xs).map id
  | Json.jobj _ => Except.ok "[object Object]"

def arrToString : List Json → Except String String
  | [] => Except.ok ""
  | [Json.jnull] => Except.ok ""
  | [x] => jsToString x
  | x :: y :: rest => do
    let s ← match x with
      | Json.jnull => pure ""
      | _ => jsToString x
    let t ← arrToString (y :: rest)
    pure (s ++ "," ++ t)

end

/-- The recognized entry points of the harness (lines 159, 163, 173,
182); `none` means the user did not define that function. -/
structure JsEnv where
  twoSum : Option (Json → Option Int → Except String (Option Json))
  maxSubArray : Option (Json → Except String (Option Json))
  isValid : Option (String → Except String (Option Json))
  climbStairs : Option (Option Int → Except String (Option Json))

def noEntryEnv : JsEnv := ⟨none, none, none, none⟩

/-- `result !== undefined ? JSON.stringify(result) : 'undefined'` -/
def stringifyOrUndefined : Option Json → String
  | none => "undefined"
  | some v => jsonStringify v

/-- `result !== undefined ? result.toString() : 'undefined'` -/
def toStringOrUndefined : Option Json → Except String String
  | none => Except.ok "undefined"
  | some v => jsToString v

/-- The inner `try` of the harness, lines 150-187: classify the input by
punctuation, parse it, call the defined entry point.  Returns the pair
`(actualOutput, functionCalled)` or the thrown message. -/
def jsHarnessInner (env : JsEnv) (input : String) : Except String (String × Bool) :=
  if containsChar input '[' && containsChar input ',' then
    let parts := jsSplitComma input
    if parts.length ≥ 2 then
      let arrayPart :=
        jsSubstring input (jsIndexOfChar input '[') (jsIndexOfChar input ']' + 1)
      match jsonParse arrayPart with
      | none => Except.error (jsonSyntaxMsg arrayPart)
      | some nums =>
        let target := jsParseInt (jsTrim (parts.getLast?.getD ""))
        match env.twoSum with
        | some f => do
          let r ← f nums target
          pure (stringifyOrUndefined r, true)
        | none =>
          match env.maxSubArray with
          | some f => do
            let r ← f nums
            let s ← toStringOrUndefined r
            pure (s, true)
          | none => pure ("undefined", false)
    else pure ("undefined", false)
  else if containsChar input '\"' then
    match quotedSubstring input with
    | none => Except.error "TypeError: match result is null"
    | some str =>
      match env.isValid with
      | some f => do
        let r ← f str
        let s ← toStringOrUndefined r
        pure (s, true)
      | none => pure ("undefined", false)
  else
    let num := jsParseInt input
    match env.climbStairs with
    | some f => do
      let r ← f num
      let s ← toStringOrUndefined r
      pure (s, true)
    | none => pure ("undefined", false)

/-- Lines 189-196: a non-called function becomes the not-found sentinel, a
thrown message is prefixed with `ERROR: ` by the inner `catch`. -/
def jsHarnessActualOutput (env : JsEnv) (input : String) : String :=
  match jsHarnessInner env input with
  | Except.ok (out, called) =>
    if called then out else "ERROR: Function not found or not implemented"
  | Except.error e => "ERROR: " ++ e

/-- One iteration of the `forEach` of line 140: `passed` is the string
equality of line 199 and the pushed record is that of lines 201-207.
The outer `catch` (lines 209-218) is unreachable: nothing after the inner
`catch` can throw, and the model reflects the live paths. -/
def jsHarnessTest (env : JsEnv) (tc : TestCase) (index : Nat) : ExecutionResult :=
  let actualOutput := jsHarnessActualOutput env tc.input
  { testCaseIndex := index
    passed := actualOutput == tc.expectedOutput
    actualOutput := actualOutput
    expectedOutput := tc.expectedOutput
    error := none
    executionTime := 0 }

def jsHarnessRunFrom (env : JsEnv) (index : Nat) : List TestCase → List ExecutionResult
  | [] => []
  | tc :: rest => jsHarnessTest env tc index :: jsHarnessRunFrom env (index + 1) rest

/-- The whole harness run: one pushed result per test case, in order. -/
def jsHarnessRun (env : JsEnv) (testCases : List TestCase) : List ExecutionResult :=
  jsHarnessRunFrom env 0 testCases

/-! ## Judge orchestrator route (`judge.ts` lines 11-75) -/

inductive Language where
  | javascript : Language
  | python : Language
  | cpp : Language
  | java : Language
deriving DecidableEq

/-- The distinct HTTP responses the route sends. -/
inductive JudgeResponse where
  | badRequest : String → JudgeResponse
  | notFound : String → JudgeResponse
  | notImplemented : String → JudgeResponse
  | verdict : String → Nat → JudgeResult → JudgeResponse

/-- `judge.ts` line 52: the verdict string compares counts only. -/
def submissionStatus (jr : JudgeResult) : String :=
  if jr.passedTests = jr.totalTests then "Accepted" else "Wrong Answer"

/-- `Math.round((passedTests / totalTests) * 100)`, line 53/58, for the
integral values that occur here. -/
def submissionAccuracy (jr : JudgeResult) : Nat :=
  (200 * jr.passedTests + jr.totalTests) / (2 * jr.totalTests)

def mkVerdict (jr : JudgeResult) : JudgeResponse :=
  JudgeResponse.verdict (submissionStatus jr) (submissionAccuracy jr) jr

/-- `judgeSubmission`, `judge.ts` lines 11-75, after body validation: the
question lookup, the empty-test-case guard, and the language switch.  The
three environments stand for whatever the executors would encounter; the
`java` arm returns 501 before any of them is consulted. -/
def judgeSubmission (language : Language) (question : Option (List TestCase))
    (envJs envPy : ExecEnv) (envCpp : CppEnv) : JudgeResponse :=
  match question with
  | none => JudgeResponse.notFound "Question not found"
  | some testCases =>
    if testCases.isEmpty then
      JudgeResponse.badRequest "No test cases available for this question"
    else
      match language with
      | Language.javascript => mkVerdict (executeJavaScript envJs testCases)
      | Language.python => mkVerdict (executePython envPy testCases)
      | Language.cpp => mkVerdict (executeCpp envCpp testCases)
      | Language.java => JudgeResponse.notImplemented "Java execution not yet implemented"

/-! ## Sample values used to evaluate the model at concrete inputs -/

/-- The two-argument array scenario of the spec (section 8). -/
def sampleTestCase : TestCase := ⟨"[2,7,11,15], 9", "[0,1]", ""⟩

def sampleTestCase2 : TestCase := ⟨"5", "8", ""⟩

/-- An invocation whose every effect succeeds and whose process printed
an empty result array. -/
def okEnvEmpty : ExecEnv :=
  ⟨1700000000000, Except.ok (), Except.ok (), Except.ok "JUDGE_RESULT:[]", Except.ok ()⟩

/-- An invocation whose spawned process was killed (the timeout path:
`close` fires with a non-zero code and the promise rejects). -/
def failEnvJs : ExecEnv :=
  ⟨1700000000000, Except.ok (), Except.ok (),
    Except.error "Process exited with code null", Except.ok ()⟩

/-- A C++ invocation whose compile step rejected. -/
def cppCompileFailEnv : CppEnv :=
  ⟨1700000000000, 1700000000000, Except.ok (), Except.ok (),
    Except.error "Compilation failed: undefined reference", Except.ok "",
    Except.ok (), Except.ok ()⟩

/-- A clean C++ invocation at clock reading 1700000000000. -/
def cppOkEnv : CppEnv :=
  ⟨1700000000000, 1700000000000, Except.ok (), Except.ok (), Except.ok (),
    Except.ok "JUDGE_RESULT:[]", Except.ok (), Except.ok ()⟩

/-- A different clean C++ invocation at the same clock reading. -/
def cppOkEnv2 : CppEnv :=
  ⟨1700000000000, 1700000000000, Except.ok (), Except.ok (), Except.ok (),
    Except.ok "different captured output", Except.ok (), Except.ok ()⟩

/-- Split a text into its lines. -/
def splitLinesChars : List Char → List (List Char)
  | [] => [[]]
  | '\n' :: rest => [] :: splitLinesChars rest
  | c :: rest =>
    match splitLinesChars rest with
    | [] => [[c]]
    | g :: gs => (c :: g) :: gs

def linesOf (s : String) : List String :=
  (splitLinesChars s.data).map String.mk

/-- Whether a line begins with the sentinel marker `JUDGE_RESULT:`. -/
def lineBeginsWithSentinel (s : String) : Bool :=
  List.isPrefixOf sentinelMarker s.data

/-! ## Properties -/

/-- The shape every `JudgeResult` built by `parseJudgeOutput` or an
executor `catch` branch has. -/
def ParsedShape (testCases : List TestCase) (r : JudgeResult) : Prop :=
  r.totalTests = testCases.length ∧
  countPassedTruthy r.results = some r.passedTests ∧
  (r.success = false → r.passedTests = 0 ∧ r.results = [] ∧ r.overallError.isSome = true)

theorem countPassedTruthy_le (rs : List Json) (k : Nat)
    (h : countPassedTruthy rs = some k) : k ≤ rs.length := by
  induction rs generalizing k with
  | nil => simp [countPassedTruthy] at h; omega
  | cons r rest ih =>
    unfold countPassedTruthy at h
    cases hr : jsPassedTruthy r with
    | none => rw [hr] at h; exact absurd h (by simp)
    | some b =>
      rw [hr] at h
      cases hc : countPassedTruthy rest with
      | none => rw [hc] at h; exact absurd h (by simp)
      | some m =>
        rw [hc] at h
        have hm := ih m hc
        have : k = if b then m + 1 else m := by
          have := h
          simp at this
          omega
        cases b <;> simp at this <;> simp [this, List.length_cons] <;> omega

theorem parseFailure_shape (testCases : List TestCase) (msg : String) :
    ParsedShape testCases (parseFailure testCases msg) := by
  refine ⟨rfl, rfl, fun _ => ⟨rfl, rfl, rfl⟩⟩

theorem parseJudgeOutput_shape (output : String) (testCases : List TestCase) :
    ParsedShape testCases (parseJudgeOutput output testCases) := by
  unfold parseJudgeOutput
  split
  · exact parseFailure_shape _ _
  · split
    · exact parseFailure_shape _ _
    · split
      · exact parseFailure_shape _ _
      · next k heq => exact ⟨rfl, by simpa using heq, fun hf => by simp at hf⟩
    · exact parseFailure_shape _ _

theorem execFailure_shape (testCases : List TestCase) (msg : String) :
    ParsedShape testCases (execFailure testCases msg) := by
  refine ⟨rfl, rfl, fun _ => ⟨rfl, rfl, rfl⟩⟩

theorem executeJavaScript_shape (env : ExecEnv) (testCases : List TestCase) :
    ParsedShape testCases (executeJavaScript env testCases) := by
  unfold executeJavaScript executeJavaScriptRun
  cases env.writeOutcome with
  | error e => exact execFailure_shape _ _
  | ok _ =>
    cases env.runOutcome with
    | error e => exact execFailure_shape _ _
    | ok stdout =>
      cases env.unlinkOutcome with
      | error e => exact execFailure_shape _ _
      | ok _ => exact parseJudgeOutput_shape _ _

theorem executePython_shape (env : ExecEnv) (testCases : List TestCase) :
    ParsedShape testCases (executePython env testCases) := by
  unfold executePython executePythonRun
  cases env.writeOutcome with
  | error e => exact execFailure_shape _ _
  | ok _ =>
    cases env.runOutcome with
    | error e => exact execFailure_shape _ _
    | ok stdout =>
      cases env.unlinkOutcome with
      | error e => exact execFailure_shape _ _
      | ok _ => exact parseJudgeOutput_shape _ _

theorem executeCpp_shape (env : CppEnv) (testCases : List TestCase) :
    ParsedShape testCases (executeCpp env testCases) := by
  unfold executeCpp executeCppRun
  cases env.writeOutcome with
  | error e => exact execFailure_shape _ _
  | ok _ =>
    cases env.compileOutcome with
    | error e => exact execFailure_shape _ _
    | ok _ =>
      cases env.runOutcome with
      | error e => exact execFailure_shape _ _
      | ok stdout =>
        cases env.unlinkSrcOutcome with
        | error e => exact execFailure_shape _ _
        | ok _ =>
          cases env.unlinkExeOutcome with
          | error e => exact parseJudgeOutput_shape _ _
          | ok _ => exact parseJudgeOutput_shape _ _

theorem produced_shape (testCases : List TestCase) (r : JudgeResult)
    (h : Produced testCases r) : ParsedShape testCases r := by
  rcases h with ⟨env, rfl⟩ | ⟨env, rfl⟩ | ⟨env, rfl⟩
  · exact executeJavaScript_shape env testCases
  · exact executePython_shape env testCases
  · exact executeCpp_shape env testCases

/-- C1: for every judge submission with a non-empty test-case list, the
orchestrator reports status `Accepted` iff the executor's `JudgeResult`
has `passedTests = totalTests` and `success = true`; in every other case
the status is not `Accepted`. -/
theorem claim1_accepted_iff (testCases : List TestCase) (r : JudgeResult)
    (hprod : Produced testCases r) (hne : testCases ≠ []) :
    submissionStatus r = "Accepted" ↔
      (r.passedTests = r.totalTests ∧ r.success = true) := by
  obtain ⟨htot, _, hfail⟩ := produced_shape testCases r hprod
  unfold submissionStatus
  by_cases hs : r.success = true
  · split_ifs with hp
    · simp [hp, hs]
    · constructor
      · intro h; exact absurd h (by decide)
      · rintro ⟨h, _⟩; exact absurd h hp
  · have hs' : r.success = false := by
      cases hb : r.success
      · rfl
      · exact absurd hb hs
    obtain ⟨hz, _, _⟩ := hfail hs'
    have hlen : testCases.length ≠ 0 := fun h0 =>
      hne (List.eq_nil_of_length_eq_zero h0)
    split_ifs with hp
    · exact absurd (htot ▸ hz ▸ hp.symm) hlen
    · constructor
      · intro h; exact absurd h (by decide)
      · rintro ⟨_, h⟩; exact absurd h hs

theorem claim1_accepted_iff_witness :
    submissionStatus (executeJavaScript okEnvEmpty [sampleTestCase]) = "Accepted" ↔
      ((executeJavaScript okEnvEmpty [sampleTestCase]).passedTests =
          (executeJavaScript okEnvEmpty [sampleTestCase]).totalTests ∧
        (executeJavaScript okEnvEmpty [sampleTestCase]).success = true) :=
  claim1_accepted_iff [sampleTestCase] (executeJavaScript okEnvEmpty [sampleTestCase])
    (Or.inl ⟨okEnvEmpty, rfl⟩) (by decide)

/-- C2 (amended): for every `JudgeResult` the parser builds from captured
output, `passedTests` is exactly the count of entries of `results` whose
`passed` field is truthy (so `passedTests ≤ len(results)`), and
`totalTests = len(testCases)`; but `passedTests ≤ totalTests` is not
enforced when the decoded list is longer than the test-case list. -/
theorem claim2_passed_count (output : String) (testCases : List TestCase) :
    (parseJudgeOutput output testCases).totalTests = testCases.length ∧
    countPassedTruthy (parseJudgeOutput output testCases).results =
      some (parseJudgeOutput output testCases).passedTests ∧
    (parseJudgeOutput output testCases).passedTests ≤
      (parseJudgeOutput output testCases).results.length := by
  obtain ⟨h1, h2, _⟩ := parseJudgeOutput_shape output testCases
  exact ⟨h1, h2, countPassedTruthy_le _ _ h2⟩

/-- C2 as stated is false: captured output whose sentinel payload holds
two passing entries against a single test case yields
`passedTests = 2 > 1 = totalTests`. -/
theorem claim2_counterexample :
    ¬ ((parseJudgeOutput "JUDGE_RESULT:[\x7b\"passed\":true\x7d,\x7b\"passed\":true\x7d]"
          [sampleTestCase]).passedTests ≤
        (parseJudgeOutput "JUDGE_RESULT:[\x7b\"passed\":true\x7d,\x7b\"passed\":true\x7d]"
          [sampleTestCase]).totalTests) := by decide

/-- C3: every executor-produced `JudgeResult` with `success = false` has
an empty `results` list and a set `overallError`. -/
theorem claim3_failure_empty (testCases : List TestCase) (r : JudgeResult)
    (hprod : Produced testCases r) (h : r.success = false) :
    r.results = [] ∧ r.overallError.isSome = true := by
  obtain ⟨_, _, hfail⟩ := produced_shape testCases r hprod
  obtain ⟨_, h2, h3⟩ := hfail h
  exact ⟨h2, h3⟩

theorem claim3_failure_empty_witness :
    (executeJavaScript failEnvJs [sampleTestCase]).results = [] ∧
    (executeJavaScript failEnvJs [sampleTestCase]).overallError.isSome = true :=
  claim3_failure_empty [sampleTestCase] (executeJavaScript failEnvJs [sampleTestCase])
    (Or.inl ⟨failEnvJs, rfl⟩) (by decide)

theorem jsHarnessRunFrom_length (env : JsEnv) (index : Nat) (testCases : List TestCase) :
    (jsHarnessRunFrom env index testCases).length = testCases.length := by
  induction testCases generalizing index with
  | nil => rfl
  | cons tc rest ih => simp [jsHarnessRunFrom, ih]

theorem jsHarnessRunFrom_get (env : JsEnv) (testCases : List TestCase) :
    ∀ (index i : Nat) (h : i < (jsHarnessRunFrom env index testCases).length),
      ((jsHarnessRunFrom env index testCases).get ⟨i, h⟩).testCaseIndex = index + i := by
  induction testCases with
  | nil => intro index i h; simp [jsHarnessRunFrom] at h
  | cons tc rest ih =>
    intro index i h
    cases i with
    | zero => rfl
    | succ j =>
      have hj : j < (jsHarnessRunFrom env (index + 1) rest).length :=
        Nat.lt_of_succ_lt_succ h
      have hrec :
          ((jsHarnessRunFrom env index (tc :: rest)).get ⟨j + 1, h⟩).testCaseIndex =
            index + 1 + j :=
        ih (index + 1) j hj
      omega

/-- C4 (amended): the generated harness emits exactly one entry per test
case, in order, with `testCaseIndex = i`; `parseJudgeOutput` itself does
not enforce this on arbitrary captured output. -/
theorem claim4_harness_indexed (env : JsEnv) (testCases : List TestCase) :
    (jsHarnessRun env testCases).length = testCases.length ∧
    ∀ (i : Nat) (h : i < (jsHarnessRun env testCases).length),
      ((jsHarnessRun env testCases).get ⟨i, h⟩).testCaseIndex = i := by
  refine ⟨jsHarnessRunFrom_length env 0 testCases, fun i h => ?_⟩
  simpa using jsHarnessRunFrom_get env testCases 0 i h

theorem claim4_harness_indexed_witness :
    (jsHarnessRun noEntryEnv [sampleTestCase]).length = 1 ∧
    ((jsHarnessRun noEntryEnv [sampleTestCase]).get ⟨0, by decide⟩).testCaseIndex = 0 :=
  ⟨by simpa using (claim4_harness_indexed noEntryEnv [sampleTestCase]).1,
    (claim4_harness_indexed noEntryEnv [sampleTestCase]).2 0 (by decide)⟩

/-- C4 as stated is false: output whose sentinel payload is an empty
array against one test case yields `success = true` with
`len(results) = 0 ≠ 1 = totalTests`. -/
theorem claim4_counterexample :
    (parseJudgeOutput "JUDGE_RESULT:[]" [sampleTestCase]).success = true ∧
    (parseJudgeOutput "JUDGE_RESULT:[]" [sampleTestCase]).results.length ≠
      (parseJudgeOutput "JUDGE_RESULT:[]" [sampleTestCase]).totalTests := by decide

/-- C5 (amended): the parser succeeds exactly when the regex finds a
`JUDGE_RESULT:` occurrence (anywhere in a line, not only at line start)
whose rest-of-line decodes as a JSON array that can be counted; every
parse failure yields `success = false` with zero passed tests and an
empty results list, never partial credit. -/
theorem claim5_parser_sentinel (output : String) (testCases : List TestCase) :
    ((parseJudgeOutput output testCases).success = true ↔
      ∃ cap rs k, sentinelCapture output = some cap ∧
        jsonParse cap = some (Json.jarr rs) ∧ countPassedTruthy rs = some k) ∧
    ((parseJudgeOutput output testCases).success = false →
      (parseJudgeOutput output testCases).passedTests = 0 ∧
      (parseJudgeOutput output testCases).results = [] ∧
      (parseJudgeOutput output testCases).overallError.isSome = true) := by
  refine ⟨⟨?_, ?_⟩, (parseJudgeOutput_shape output testCases).2.2⟩
  · intro hs
    cases h1 : sentinelCapture output with
    | none => simp [parseJudgeOutput, h1, parseFailure] at hs
    | some cap =>
      cases h2 : jsonParse cap with
      | none => simp [parseJudgeOutput, h1, h2, parseFailure] at hs
      | some v =>
        cases v with
        | jarr rs =>
          cases h3 : countPassedTruthy rs with
          | none => simp [parseJudgeOutput, h1, h2, h3, parseFailure] at hs
          | some k => exact ⟨cap, rs, k, rfl, h2, h3⟩
        | jnull => simp [parseJudgeOutput, h1, h2, parseFailure] at hs
        | jbool b => simp [parseJudgeOutput, h1, h2, parseFailure] at hs
        | jnum n => simp [parseJudgeOutput, h1, h2, parseFailure] at hs
        | jstr s => simp [parseJudgeOutput, h1, h2, parseFailure] at hs
        | jobj ms => simp [parseJudgeOutput, h1, h2, parseFailure] at hs
  · rintro ⟨cap, rs, k, h1, h2, h3⟩
    simp [parseJudgeOutput, h1, h2, h3]

theorem claim5_parser_sentinel_witness :
    (parseJudgeOutput "garbage" [sampleTestCase]).passedTests = 0 ∧
    (parseJudgeOutput "garbage" [sampleTestCase]).results = [] ∧
    (parseJudgeOutput "garbage" [sampleTestCase]).overallError.isSome = true :=
  (claim5_parser_sentinel "garbage" [sampleTestCase]).2 (by decide)

/-- C5 as stated is false: the regex is not anchored to the start of a
line — output in which no line begins with `JUDGE_RESULT:` still parses
successfully, so the parser does not fail exactly when the sentinel line
is absent. -/
theorem claim5_counterexample :
    ((linesOf "xJUDGE_RESULT:[]").all fun l => !(lineBeginsWithSentinel l)) = true ∧
    (parseJudgeOutput "xJUDGE_RESULT:[]" [sampleTestCase]).success = true := by decide

/-- C6 is violated by the code: cleanup runs only on the success path.
A JavaScript run whose process rejects leaves the generated source file
on disk, and a C++ compilation failure leaves the generated source; the
invocation returns with `remaining ≠ []`. -/
theorem claim6_artifact_leak :
    (executeJavaScriptRun failEnvJs [sampleTestCase]).remaining =
      ["solution_1700000000000.js"] ∧
    (executeCppRun cppCompileFailEnv [sampleTestCase]).remaining =
      ["solution_1700000000000.cpp"] := by decide

/-- C7 is violated by the code: artifact paths depend only on the
`Date.now()` readings, so two distinct invocations (here: different
submissions, different captured output) that fall in the same
millisecond generate identical source and executable paths. -/
theorem claim7_name_collision :
    sampleTestCase ≠ sampleTestCase2 ∧
    (executeCppRun cppOkEnv [sampleTestCase]).created =
      (executeCppRun cppOkEnv2 [sampleTestCase2]).created ∧
    (executeCppRun cppOkEnv [sampleTestCase]).created =
      ["solution_1700000000000.cpp", "solution_1700000000000.exe"] := by decide

theorem executeJavaScript_catch (env : ExecEnv) (testCases : List TestCase)
    (h : (∃ e, env.writeOutcome = Except.error e) ∨
         (∃ e, env.runOutcome = Except.error e) ∨
         (∃ e, env.unlinkOutcome = Except.error e) ∨
         (∀ s, env.runOutcome = Except.ok s →
            (parseJudgeOutput s testCases).success = false)) :
    (executeJavaScript env testCases).success = false ∧
    (executeJavaScript env testCases).overallError.isSome = true := by
  unfold executeJavaScript executeJavaScriptRun
  cases hw : env.writeOutcome with
  | error e => exact ⟨rfl, rfl⟩
  | ok _ =>
    cases hr : env.runOutcome with
    | error e => exact ⟨rfl, rfl⟩
    | ok stdout =>
      cases hu : env.unlinkOutcome with
      | error e => exact ⟨rfl, rfl⟩
      | ok _ =>
        rcases h with ⟨e, hh⟩ | ⟨e, hh⟩ | ⟨e, hh⟩ | hp
        · rw [hw] at hh; cases hh
        · rw [hr] at hh; cases hh
        · rw [hu] at hh; cases hh
        · have hs := hp stdout hr
          have hshape := (parseJudgeOutput_shape stdout testCases).2.2 hs
          exact ⟨hs, hshape.2.2⟩

theorem executePython_catch (env : ExecEnv) (testCases : List TestCase)
    (h : (∃ e, env.writeOutcome = Except.error e) ∨
         (∃ e, env.runOutcome = Except.error e) ∨
         (∃ e, env.unlinkOutcome = Except.error e) ∨
         (∀ s, env.runOutcome = Except.ok s →
            (parseJudgeOutput s testCases).success = false)) :
    (executePython env testCases).success = false ∧
    (executePython env testCases).overallError.isSome = true := by
  unfold executePython executePythonRun
  cases hw : env.writeOutcome with
  | error e => exact ⟨rfl, rfl⟩
  | ok _ =>
    cases hr : env.runOutcome with
    | error e => exact ⟨rfl, rfl⟩
    | ok stdout =>
      cases hu : env.unlinkOutcome with
      | error e => exact ⟨rfl, rfl⟩
      | ok _ =>
        rcases h with ⟨e, hh⟩ | ⟨e, hh⟩ | ⟨e, hh⟩ | hp
        · rw [hw] at hh; cases hh
        · rw [hr] at hh; cases hh
        · rw [hu] at hh; cases hh
        · have hs := hp stdout hr
          have hshape := (parseJudgeOutput_shape stdout testCases).2.2 hs
          exact ⟨hs, hshape.2.2⟩

theorem executeCpp_catch (env : CppEnv) (testCases : List TestCase)
    (h : (∃ e, env.writeOutcome = Except.error e) ∨
         (∃ e, env.compileOutcome = Except.error e) ∨
         (∃ e, env.runOutcome = Except.error e) ∨
         (∃ e, env.unlinkSrcOutcome = Except.error e) ∨
         (∀ s, env.runOutcome = Except.ok s →
            (parseJudgeOutput s testCases).success = false)) :
    (executeCpp env testCases).success = false ∧
    (executeCpp env testCases).overallError.isSome = true := by
  unfold executeCpp executeCppRun
  cases hw : env.writeOutcome with
  | error e => exact ⟨rfl, rfl⟩
  | ok _ =>
    cases hc : env.compileOutcome with
    | error e => exact ⟨rfl, rfl⟩
    | ok _ =>
      cases hr : env.runOutcome with
      | error e => exact ⟨rfl, rfl⟩
      | ok stdout =>
        cases hu : env.unlinkSrcOutcome with
        | error e => exact ⟨rfl, rfl⟩
        | ok _ =>
          have hps : (parseJudgeOutput stdout testCases).success = false := by
            rcases h with ⟨e, hh⟩ | ⟨e, hh⟩ | ⟨e, hh⟩ | ⟨e, hh⟩ | hp
            · rw [hw] at hh; cases hh
            · rw [hc] at hh; cases hh
            · rw [hr] at hh; cases hh
            · rw [hu] at hh; cases hh
            · exact hp stdout hr
          have hshape := (parseJudgeOutput_shape stdout testCases).2.2 hps
          cases hx : env.unlinkExeOutcome with
          | error e => exact ⟨hps, hshape.2.2⟩
          | ok _ => exact ⟨hps, hshape.2.2⟩

/-- C8: for every failure class (write failure, compilation failure,
spawn failure / timeout / runtime crash — all of which reject the run
promise — unlink failure, or result-parse failure), each executor
returns an in-band `JudgeResult` with `success = false` and
`overallError` set; no exception propagates to the caller. -/
theorem claim8_executors_total :
    (∀ (env : ExecEnv) (testCases : List TestCase),
      ((∃ e, env.writeOutcome = Except.error e) ∨
       (∃ e, env.runOutcome = Except.error e) ∨
       (∃ e, env.unlinkOutcome = Except.error e) ∨
       (∀ s, env.runOutcome = Except.ok s →
          (parseJudgeOutput s testCases).success = false)) →
      (executeJavaScript env testCases).success = false ∧
      (executeJavaScript env testCases).overallError.isSome = true) ∧
    (∀ (env : ExecEnv) (testCases : List TestCase),
      ((∃ e, env.writeOutcome = Except.error e) ∨
       (∃ e, env.runOutcome = Except.error e) ∨
       (∃ e, env.unlinkOutcome = Except.error e) ∨
       (∀ s, env.runOutcome = Except.ok s →
          (parseJudgeOutput s testCases).success = false)) →
      (executePython env testCases).success = false ∧
      (executePython env testCases).overallError.isSome = true) ∧
    (∀ (env : CppEnv) (testCases : List TestCase),
      ((∃ e, env.writeOutcome = Except.error e) ∨
       (∃ e, env.compileOutcome = Except.error e) ∨
       (∃ e, env.runOutcome = Except.error e) ∨
       (∃ e, env.unlinkSrcOutcome = Except.error e) ∨
       (∀ s, env.runOutcome = Except.ok s →
          (parseJudgeOutput s testCases).success = false)) →
      (executeCpp env testCases).success = false ∧
      (executeCpp env testCases).overallError.isSome = true) :=
  ⟨executeJavaScript_catch, executePython_catch, executeCpp_catch⟩

theorem claim8_executors_total_witness :
    ((executeJavaScript failEnvJs [sampleTestCase]).success = false ∧
      (executeJavaScript failEnvJs [sampleTestCase]).overallError.isSome = true) ∧
    ((executePython failEnvJs [sampleTestCase]).success = false ∧
      (executePython failEnvJs [sampleTestCase]).overallError.isSome = true) ∧
    ((executeCpp cppCompileFailEnv [sampleTestCase]).success = false ∧
      (executeCpp cppCompileFailEnv [sampleTestCase]).overallError.isSome = true) :=
  ⟨claim8_executors_total.1 failEnvJs [sampleTestCase]
      (Or.inr (Or.inl ⟨"Process exited with code null", rfl⟩)),
    claim8_executors_total.2.1 failEnvJs [sampleTestCase]
      (Or.inr (Or.inl ⟨"Process exited with code null", rfl⟩)),
    claim8_executors_total.2.2 cppCompileFailEnv [sampleTestCase]
      (Or.inr (Or.inl ⟨"Compilation failed: undefined reference", rfl⟩))⟩

theorem jsHarnessInner_noEntry (input : String) (out : String) (called : Bool)
    (h : jsHarnessInner noEntryEnv input = Except.ok (out, called)) :
    called = false := by
  unfold jsHarnessInner at h
  simp only [noEntryEnv] at h
  repeat' split at h
  all_goals simp_all [pure, Except.pure]

/-- C9 (amended): in the generated JavaScript harness, a test whose input
parses without a recognized entry point being defined gets the not-found
sentinel as `actualOutput`; a test whose input parsing (or invoked
function) throws gets `ERROR: ` followed by the thrown message, not the
not-found sentinel; in both cases no exception escapes the per-test step
and `passed` is exactly string equality of `actualOutput` against
`expectedOutput`. -/
theorem claim9_harness_error_paths :
    (∀ (tc : TestCase) (i : Nat) (out : String) (called : Bool),
        jsHarnessInner noEntryEnv tc.input = Except.ok (out, called) →
        (jsHarnessTest noEntryEnv tc i).actualOutput =
          "ERROR: Function not found or not implemented") ∧
    (∀ (env : JsEnv) (tc : TestCase) (i : Nat) (e : String),
        jsHarnessInner env tc.input = Except.error e →
        (jsHarnessTest env tc i).actualOutput = "ERROR: " ++ e) ∧
    (∀ (env : JsEnv) (tc : TestCase) (i : Nat),
        (jsHarnessTest env tc i).passed =
          ((jsHarnessTest env tc i).actualOutput == tc.expectedOutput)) := by
  refine ⟨fun tc i out called h => ?_, fun env tc i e h => ?_, fun env tc i => rfl⟩
  · have hc := jsHarnessInner_noEntry tc.input out called h
    subst hc
    show jsHarnessActualOutput noEntryEnv tc.input = _
    unfold jsHarnessActualOutput
    rw [h]
    simp
  · show jsHarnessActualOutput env tc.input = _
    unfold jsHarnessActualOutput
    rw [h]

theorem claim9_harness_error_paths_witness :
    (jsHarnessTest noEntryEnv sampleTestCase 0).actualOutput =
      "ERROR: Function not found or not implemented" ∧
    (jsHarnessTest noEntryEnv ⟨"[3,4", "x", ""⟩ 1).actualOutput =
      "ERROR: " ++ "Unexpected end of JSON input" ∧
    (jsHarnessTest noEntryEnv sampleTestCase 0).passed =
      ((jsHarnessTest noEntryEnv sampleTestCase 0).actualOutput ==
        sampleTestCase.expectedOutput) :=
  ⟨claim9_harness_error_paths.1 sampleTestCase 0 "undefined" false rfl,
    claim9_harness_error_paths.2.1 noEntryEnv ⟨"[3,4", "x", ""⟩ 1
      "Unexpected end of JSON input" rfl,
    claim9_harness_error_paths.2.2 noEntryEnv sampleTestCase 0⟩

/-- C9 as stated is false: a test whose input parsing fails (input
`"[1,2"` has a bracket and a comma but no closing bracket, so the
extracted array text is empty and `JSON.parse` throws) gets the thrown
message, not the not-found sentinel. -/
theorem claim9_counterexample :
    (jsHarnessTest noEntryEnv ⟨"[1,2", "[0,1]", ""⟩ 0).actualOutput =
      "ERROR: Unexpected end of JSON input" ∧
    (jsHarnessTest noEntryEnv ⟨"[1,2", "[0,1]", ""⟩ 0).actualOutput ≠
      "ERROR: Function not found or not implemented" ∧
    (jsHarnessTest noEntryEnv ⟨"[1,2", "[0,1]", ""⟩ 0).passed = false := by decide

/-- C10: a java submission (with a resolved question and a non-empty
test-case list) gets the 501 not-implemented response, independent of
every executor environment — no execution stage runs — and that response
is not a verdict, so it is distinguishable from a runtime failure. -/
theorem claim10_java_not_implemented (testCases : List TestCase)
    (h : testCases ≠ []) (envJs envPy : ExecEnv) (envCpp : CppEnv) :
    judgeSubmission Language.java (some testCases) envJs envPy envCpp =
      JudgeResponse.notImplemented "Java execution not yet implemented" ∧
    (∀ (s : String) (a : Nat) (jr : JudgeResult),
        judgeSubmission Language.java (some testCases) envJs envPy envCpp ≠
          JudgeResponse.verdict s a jr) := by
  have hne : testCases.isEmpty = false := by
    cases testCases
    · exact absurd rfl h
    · rfl
  have h1 : judgeSubmission Language.java (some testCases) envJs envPy envCpp =
      JudgeResponse.notImplemented "Java execution not yet implemented" := by
    simp [judgeSubmission, hne]
  refine ⟨h1, fun s a jr hEq => ?_⟩
  rw [h1] at hEq
  cases hEq

theorem claim10_java_not_implemented_witness :
    judgeSubmission Language.java (some [sampleTestCase]) failEnvJs failEnvJs
        cppCompileFailEnv =
      JudgeResponse.notImplemented "Java execution not yet implemented" :=
  (claim10_java_not_implemented [sampleTestCase] (by decide) failEnvJs failEnvJs
    cppCompileFailEnv).1

end Judge
